import Mathlib

/-!
Shallow embedding of the tspcrdelta / PCR-comparator engine of this repository.

The repository carries several revisions of the same comparison engine:

* `ts::tspcrdelta::Core` (src/libtsduck/plugins/private/tstspcrdeltaCore.cpp):
  timestamp-aware samples, alignment threshold 5 ms, latency threshold
  hardcoded to 1 ms (`_pcr_delta_threshold_in_ms(1)`), CSV header
  `PCR1,PCR2,PCR Delta,PCR Delta (ms),Sync`, bool printed without
  `std::boolalpha`.
* `ts::PcrComparator` (src/libtsduck/plugins/apps/tsPcrComparator.cpp):
  same control structure, alignment threshold 10 ms, latency threshold from
  `args.latencyThreshold`, header `PCR1,PCR2,PCR Delta,Latency (ms),Sync`,
  bool printed with `std::boolalpha`.
* the `ts::PcrComparator` revision in src/unnamed/part_000 and the
  latency-monitor Core: alignment thresholds 5 ms resp. 10 ms, latency
  threshold from `args.latencyThreshold`.

All revisions share the queue discipline of `comparePCR`, modelled once below
with the two thresholds as parameters; named instantiations fix them to the
constants of each revision.  Machine integers are modelled as `Nat`/`Int`
with explicit twos-complement wrapping; the `double` expressions
`(double) x / (90000*300) * 1000` are modelled exactly in `ℚ`.
-/

/-- Twos-complement wrap of an integer into the `int64_t` range
`[-2^63, 2^63)`, as performed by C++ conversions and (on overflow) by the
arithmetic in `comparePCR`. -/
def int64Wrap (x : ℤ) : ℤ := (x + 2 ^ 63) % 2 ^ 64 - 2 ^ 63

/-- Conversion of a `uint64_t` value to `int64_t`, as in
`int64_t pcr1 = pcrData1.at(0);` (tstspcrdeltaCore.cpp:184). -/
def int64OfUInt64 (n : ℕ) : ℤ := int64Wrap (n : ℤ)

/-- C++ `abs` on `int64_t` (`llabs`): mathematical absolute value wrapped back
into the `int64_t` range (the single wrapping case `x = -2^63` models the
usual twos-complement outcome of the undefined behaviour). -/
def llabs (x : ℤ) : ℤ := int64Wrap |x|

/-- The TSDuck `INVALID_PCR` sentinel (all-ones 64-bit value).  Its defining
header is not under src/; the value is the one used by the repository callers of `getPCR()`. -/
def INVALID_PCR : ℕ := 18446744073709551615

/-- One queued PCR sample: `{pcr, timestamp}` as pushed by `analyzePacket`
(tstspcrdeltaCore.cpp:145, tsPcrComparator.cpp:123).  Both fields are
`uint64_t` values. -/
structure TimingData where
  pcr : ℕ
  timestamp : ℕ
deriving DecidableEq

/-- One record emitted by `comparePCR`: the five CSV fields
(tstspcrdeltaCore.cpp:190-194).  `pcrDeltaInMs` carries the exact rational
value of the `double` expression. -/
structure PcrRecord where
  pcr1 : ℤ
  pcr2 : ℤ
  pcrDelta : ℤ
  pcrDeltaInMs : ℚ
  sync : Bool
deriving DecidableEq

/-- The comparison-relevant state of the Core: the two per-input PCR queues
(`_pcrs.at(0)`, `_pcrs.at(1)`; front = head, push_back = append) and the
sequence of records written to the output sink so far. -/
structure CoreState where
  q0 : List TimingData
  q1 : List TimingData
  output : List PcrRecord
deriving DecidableEq

/-- `resetPCRDataList` (tstspcrdeltaCore.cpp:223-228): clear both queues
entirely; the output sink is untouched. -/
def resetPCRDataList (s : CoreState) : CoreState :=
  { s with q0 := [], q1 := [] }

/-- `verifyPCRDataInputTimestamp` (tstspcrdeltaCore.cpp:210-217,
tsPcrComparator.cpp:189-194): convert the two `uint64_t` timestamps to
`int64_t`, take `abs` of their difference, convert to milliseconds in
`double`, and compare with the threshold.  The threshold is `5` in the
tstspcrdelta Core revision and `10` in the PcrComparator revisions; it is a
parameter here. -/
def verifyPCRDataInputTimestamp (timestampThreshold : ℚ) (data1 data2 : TimingData) : Bool :=
  let timestamp1 : ℤ := int64OfUInt64 data1.timestamp
  let timestamp2 : ℤ := int64OfUInt64 data2.timestamp
  let timestampDiffInMs : ℚ := (llabs (int64Wrap (timestamp1 - timestamp2)) : ℚ) / (90000 * 300) * 1000
  decide (timestampDiffInMs > timestampThreshold)

/-- `comparePCR` (tstspcrdeltaCore.cpp:168-204, tsPcrComparator.cpp:146-183):
if both queues are non-empty, check front-timestamp alignment; on
misalignment reset both queues, otherwise emit one record and pop both
fronts.  If instead one queue has grown beyond 10 samples, reset.  The two
inputs always exist (`pcrs.size() == 2`), so that outer guard is inherent in
`CoreState`. -/
def comparePCR (alignThresholdMs latencyThresholdMs : ℚ) (s : CoreState) : CoreState :=
  match s.q0, s.q1 with
  | pcrData1 :: _, pcrData2 :: _ =>
    if verifyPCRDataInputTimestamp alignThresholdMs pcrData1 pcrData2 then
      resetPCRDataList s
    else
      let pcr1 : ℤ := int64OfUInt64 pcrData1.pcr
      let pcr2 : ℤ := int64OfUInt64 pcrData2.pcr
      let pcrDelta : ℤ := llabs (int64Wrap (pcr1 - pcr2))
      let pcrDeltaInMs : ℚ := (pcrDelta : ℚ) / (90000 * 300) * 1000
      let reachThreshold : Bool :=
        decide (pcrDelta ≥ 0) && decide (pcrDeltaInMs ≤ latencyThresholdMs)
      { q0 := s.q0.tail, q1 := s.q1.tail,
        output := s.output ++ [⟨pcr1, pcr2, pcrDelta, pcrDeltaInMs, reachThreshold⟩] }
  | _, _ =>
    if s.q0.length > 10 ∨ s.q1.length > 10 then
      resetPCRDataList s
    else
      s

/-- The alignment threshold of `ts::tspcrdelta::Core::verifyPCRDataInputTimestamp`
(tstspcrdeltaCore.cpp:212): `int64_t timestampThreshold = 5;`. -/
def tspcrdeltaCore_timestampThreshold : ℚ := 5

/-- The alignment threshold of `ts::PcrComparator::verifyPCRDataInputTimestamp`
(tsPcrComparator.cpp:191): `double timestampThreshold = 10;`. -/
def pcrComparator_timestampThreshold : ℚ := 10

/-- `_pcr_delta_threshold_in_ms` of `ts::tspcrdelta::Core`: initialized to the
constant `1` in the constructor (tstspcrdeltaCore.cpp:47); no command-line
option feeds it. -/
def tspcrdeltaCore_pcr_delta_threshold_in_ms : ℚ := 1

/-- The comparison step of `ts::tspcrdelta::Core`: alignment threshold 5 ms,
latency threshold hardcoded to 1 ms. -/
def tspcrdeltaCore_comparePCR : CoreState → CoreState :=
  comparePCR tspcrdeltaCore_timestampThreshold tspcrdeltaCore_pcr_delta_threshold_in_ms

/-- The comparison step of `ts::PcrComparator` (tsPcrComparator.cpp):
alignment threshold 10 ms, latency threshold `_latency_threshold`
(= `args.latencyThreshold`, constructor line 43). -/
def pcrComparator_comparePCR (latencyThreshold : ℚ) : CoreState → CoreState :=
  comparePCR pcrComparator_timestampThreshold latencyThreshold

/-- One packet as seen by `analyzePacket`: the results of
`TSPacket::getPCR()` and `TSPacketMetadata::getInputTimeStamp()`, both
`uint64_t`. -/
structure PacketView where
  pcr : ℕ
  timestamp : ℕ
deriving DecidableEq

/-- `push_back` of one sample onto the queue of input `pluginIndex`
(`_pcrs.at(pluginIndex)`). -/
def pushSample (s : CoreState) (pluginIndex : Fin 2) (d : TimingData) : CoreState :=
  if pluginIndex.val = 0 then { s with q0 := s.q0 ++ [d] }
  else { s with q1 := s.q1 ++ [d] }

/-- The per-packet body of `analyzePacket` (tstspcrdeltaCore.cpp:138-148,
tsPcrComparator.cpp:116-126): read the PCR; if it differs from
`INVALID_PCR`, push `(pcr, timestamp)` and invoke `comparePCR`; otherwise do
nothing. -/
def packetStep (alignThresholdMs latencyThresholdMs : ℚ) (pluginIndex : Fin 2)
    (s : CoreState) (p : PacketView) : CoreState :=
  if p.pcr ≠ INVALID_PCR then
    comparePCR alignThresholdMs latencyThresholdMs
      (pushSample s pluginIndex ⟨p.pcr, p.timestamp⟩)
  else
    s

/-- `analyzePacket`: the batch loop `for (size_t i = 0; i < count; i++)`,
processing packets in batch order. -/
def analyzePacket (alignThresholdMs latencyThresholdMs : ℚ) (pluginIndex : Fin 2)
    (s : CoreState) (batch : List PacketView) : CoreState :=
  batch.foldl (packetStep alignThresholdMs latencyThresholdMs pluginIndex) s

/-- States reachable by the serialized ingest: starting from two empty queues,
each step pushes one valid sample onto one queue and invokes the comparison
step, exactly as in `analyzePacket`. -/
inductive ReachedState (alignThresholdMs latencyThresholdMs : ℚ) : CoreState → Prop
  | init : ReachedState alignThresholdMs latencyThresholdMs ⟨[], [], []⟩
  | step (s : CoreState) (pluginIndex : Fin 2) (d : TimingData) :
      ReachedState alignThresholdMs latencyThresholdMs s →
      ReachedState alignThresholdMs latencyThresholdMs
        (comparePCR alignThresholdMs latencyThresholdMs (pushSample s pluginIndex d))

/-- The `_outFirst` / `_outCount` pair of `ts::InputExecutor`
(tstspcrdeltaInputExecutor.cpp). -/
structure RingState where
  outFirst : ℕ
  outCount : ℕ
deriving DecidableEq

/-- The drop-oldest loop of `ts::InputExecutor::main`
(tstspcrdeltaInputExecutor.cpp:156-163):
`while (_outCount >= _buffer.size()) { freeCount = min(maxInputPackets,
size - _outFirst); _outFirst = (_outFirst + freeCount) % size; _outCount -=
freeCount; }`, written with explicit fuel (the caller passes enough fuel for
the loop to run to completion). -/
def dropOldestLoop (maxInputPackets bufferSize : ℕ) : ℕ → RingState → RingState
  | 0, s => s
  | fuel + 1, s =>
    if bufferSize ≤ s.outCount then
      let freeCount := min maxInputPackets (bufferSize - s.outFirst)
      dropOldestLoop maxInputPackets bufferSize fuel
        ⟨(s.outFirst + freeCount) % bufferSize, s.outCount - freeCount⟩
    else
      s

/-- The start of one receive iteration of `ts::InputExecutor::main`
(tstspcrdeltaInputExecutor.cpp:146-169): run the drop-oldest loop, then
compute the contiguous receive window
`inFirst = (_outFirst + _outCount) % size;`
`inCount = min(maxInputPackets, min(size - _outCount, size - inFirst));`.
Returns the updated ring state and the pair `(inFirst, inCount)`. -/
def inputExecutor_receiveWindow (maxInputPackets bufferSize : ℕ) (s : RingState) :
    RingState × ℕ × ℕ :=
  let t := dropOldestLoop maxInputPackets bufferSize (s.outCount + 1) s
  let inFirst := (t.outFirst + t.outCount) % bufferSize
  let inCount := min maxInputPackets (min (bufferSize - t.outCount) (bufferSize - inFirst))
  (t, inFirst, inCount)

/-- `LantencyMonitorArgs::loadArgs` (tsLatencyMonitorArgs section of
tsPcrComparatorArgs.cpp): `args.getIntValue(latencyThreshold, u"latency", 0);`
— the value of the `--latency` option, defaulting to 0 when absent. -/
def lantencyMonitorArgs_latencyThreshold (cmdLatency : Option ℕ) : ℕ :=
  cmdLatency.getD 0

/-- The option names defined by `ts::PcrComparatorArgs::defineArgs`
(tsPcrComparatorArgs.cpp:54-59): only `output-file`; no `latency` option
exists in this argument set. -/
def pcrComparatorArgs_optionNames : List String := ["output-file"]

/-- The option names defined by `LantencyMonitorArgs::defineArgs`
(second section of tsPcrComparatorArgs.cpp, lines 135-145). -/
def lantencyMonitorArgs_optionNames : List String := ["output-file", "latency"]

/-- Modelled from the spec: `TS_DEFAULT_CSV_SEPARATOR`, whose defining header
is not under src/; the spec fixes the field separator to a single comma. -/
def TS_DEFAULT_CSV_SEPARATOR : String := ","

/-- C++ `ostream` default formatting of `bool` (no `std::boolalpha`), as in
`ts::tspcrdelta::Core::comparePCR` (tstspcrdeltaCore.cpp:194): `1` / `0`. -/
def ostreamDefaultBool (b : Bool) : String := if b then "1" else "0"

/-- C++ `ostream` formatting of `bool` under `std::boolalpha`, as in
`ts::PcrComparator::comparePCR` (tsPcrComparator.cpp:172). -/
def ostreamBoolalphaBool (b : Bool) : String := if b then "true" else "false"

/-- `ts::tspcrdelta::Core::csvHeader` (tstspcrdeltaCore.cpp:155-162); the
`std::endl` is a single newline. -/
def tspcrdeltaCore_csvHeader : String :=
  "PCR1" ++ TS_DEFAULT_CSV_SEPARATOR ++ "PCR2" ++ TS_DEFAULT_CSV_SEPARATOR ++
  "PCR Delta" ++ TS_DEFAULT_CSV_SEPARATOR ++ "PCR Delta (ms)" ++ TS_DEFAULT_CSV_SEPARATOR ++
  "Sync" ++ "\n"

/-- `ts::PcrComparator::csvHeader` (tsPcrComparator.cpp:133-140): the fourth
column is titled `Latency (ms)` in this revision. -/
def pcrComparator_csvHeader : String :=
  "PCR1" ++ TS_DEFAULT_CSV_SEPARATOR ++ "PCR2" ++ TS_DEFAULT_CSV_SEPARATOR ++
  "PCR Delta" ++ TS_DEFAULT_CSV_SEPARATOR ++ "Latency (ms)" ++ TS_DEFAULT_CSV_SEPARATOR ++
  "Sync" ++ "\n"

/-- One record line of `ts::tspcrdelta::Core::comparePCR`
(tstspcrdeltaCore.cpp:190-194).  The integer fields print in decimal; the
text of the `double` field is a parameter (its decimal rendering is outside this
embedding); the `bool` prints without `std::boolalpha`; `std::endl` is a
single newline. -/
def tspcrdeltaCore_csvLine (pcr1 pcr2 pcrDelta : ℤ) (pcrDeltaInMsText : String)
    (sync : Bool) : String :=
  toString pcr1 ++ TS_DEFAULT_CSV_SEPARATOR ++ toString pcr2 ++ TS_DEFAULT_CSV_SEPARATOR ++
  toString pcrDelta ++ TS_DEFAULT_CSV_SEPARATOR ++ pcrDeltaInMsText ++ TS_DEFAULT_CSV_SEPARATOR ++
  ostreamDefaultBool sync ++ "\n"

theorem int64Wrap_eq_self (x : ℤ) (h1 : -(2 ^ 63) ≤ x) (h2 : x < 2 ^ 63) :
    int64Wrap x = x := by
  unfold int64Wrap
  rw [Int.emod_eq_of_lt (by omega) (by omega)]
  omega

theorem int64OfUInt64_of_lt (n : ℕ) (h : n < 2 ^ 63) : int64OfUInt64 n = n := by
  unfold int64OfUInt64
  apply int64Wrap_eq_self <;> omega

theorem llabs_of_lt (x : ℤ) (h : |x| < 2 ^ 63) : llabs x = |x| := by
  unfold llabs
  apply int64Wrap_eq_self
  · have := abs_nonneg x
    omega
  · exact h

theorem int64_absDiff_exact (a b : ℕ) (h1 : a < 2 ^ 63) (h2 : b < 2 ^ 63) :
    llabs (int64Wrap (int64OfUInt64 a - int64OfUInt64 b)) = |(a : ℤ) - (b : ℤ)| := by
  rw [int64OfUInt64_of_lt a h1, int64OfUInt64_of_lt b h2,
      int64Wrap_eq_self _ (by omega) (by omega)]
  apply llabs_of_lt
  rw [abs_lt]
  omega

theorem verifyPCRDataInputTimestamp_eq_true_iff (threshold : ℚ) (d1 d2 : TimingData)
    (h1 : d1.timestamp < 2 ^ 63) (h2 : d2.timestamp < 2 ^ 63) :
    verifyPCRDataInputTimestamp threshold d1 d2 = true ↔
      threshold < |(d1.timestamp : ℚ) - (d2.timestamp : ℚ)| / (90000 * 300) * 1000 := by
  have hc : ((|(d1.timestamp : ℤ) - (d2.timestamp : ℤ)| : ℤ) : ℚ) =
      |(d1.timestamp : ℚ) - (d2.timestamp : ℚ)| := by
    push_cast
    rfl
  simp only [verifyPCRDataInputTimestamp, gt_iff_lt, decide_eq_true_eq]
  rw [int64_absDiff_exact d1.timestamp d2.timestamp h1 h2, hc]

theorem comparePCR_cons_cons_reset (alignThresholdMs latencyThresholdMs : ℚ)
    (d1 d2 : TimingData) (t0 t1 : List TimingData) (out : List PcrRecord)
    (hv : verifyPCRDataInputTimestamp alignThresholdMs d1 d2 = true) :
    comparePCR alignThresholdMs latencyThresholdMs ⟨d1 :: t0, d2 :: t1, out⟩ =
      ⟨[], [], out⟩ := by
  simp [comparePCR, hv, resetPCRDataList]

theorem comparePCR_cons_cons_emit (alignThresholdMs latencyThresholdMs : ℚ)
    (d1 d2 : TimingData) (t0 t1 : List TimingData) (out : List PcrRecord)
    (hv : verifyPCRDataInputTimestamp alignThresholdMs d1 d2 = false) :
    comparePCR alignThresholdMs latencyThresholdMs ⟨d1 :: t0, d2 :: t1, out⟩ =
      ⟨t0, t1, out ++ [⟨int64OfUInt64 d1.pcr, int64OfUInt64 d2.pcr,
        llabs (int64Wrap (int64OfUInt64 d1.pcr - int64OfUInt64 d2.pcr)),
        (llabs (int64Wrap (int64OfUInt64 d1.pcr - int64OfUInt64 d2.pcr)) : ℚ) / (90000 * 300) * 1000,
        decide (llabs (int64Wrap (int64OfUInt64 d1.pcr - int64OfUInt64 d2.pcr)) ≥ 0) &&
          decide ((llabs (int64Wrap (int64OfUInt64 d1.pcr - int64OfUInt64 d2.pcr)) : ℚ) /
            (90000 * 300) * 1000 ≤ latencyThresholdMs)⟩]⟩ := by
  simp [comparePCR, hv]

theorem comparePCR_q1_nil (alignThresholdMs latencyThresholdMs : ℚ)
    (q0 : List TimingData) (out : List PcrRecord) :
    comparePCR alignThresholdMs latencyThresholdMs ⟨q0, [], out⟩ =
      if 10 < q0.length then ⟨[], [], out⟩ else ⟨q0, [], out⟩ := by
  cases q0 with
  | nil => simp [comparePCR, resetPCRDataList]
  | cons d t => simp [comparePCR, resetPCRDataList]

theorem comparePCR_q0_nil (alignThresholdMs latencyThresholdMs : ℚ)
    (q1 : List TimingData) (out : List PcrRecord) :
    comparePCR alignThresholdMs latencyThresholdMs ⟨[], q1, out⟩ =
      if 10 < q1.length then ⟨[], [], out⟩ else ⟨[], q1, out⟩ := by
  cases q1 with
  | nil => simp [comparePCR, resetPCRDataList]
  | cons d t => simp [comparePCR, resetPCRDataList]

/-- C1: for every record emitted by the comparison step (both queues
non-empty, fronts timestamp-aligned, PCR values in the valid 42-bit range),
the Sync field is true if and only if the PCR Delta (ms) value of the record is
less than or equal to the latency threshold; in particular equality at the
threshold yields Sync = true, and the conjunct `pcrDelta >= 0` never changes
the result because the delta is an absolute value. -/
theorem C1_sync_iff_delta_le_threshold (alignThresholdMs latencyThresholdMs : ℚ)
    (d1 d2 : TimingData) (t0 t1 : List TimingData) (out : List PcrRecord)
    (hv : verifyPCRDataInputTimestamp alignThresholdMs d1 d2 = false)
    (hp1 : d1.pcr < 2 ^ 42) (hp2 : d2.pcr < 2 ^ 42) :
    ∃ r : PcrRecord,
      comparePCR alignThresholdMs latencyThresholdMs ⟨d1 :: t0, d2 :: t1, out⟩ =
        ⟨t0, t1, out ++ [r]⟩ ∧
      (r.sync = true ↔ r.pcrDeltaInMs ≤ latencyThresholdMs) ∧
      (r.pcrDeltaInMs = latencyThresholdMs → r.sync = true) := by
  have h1 : d1.pcr < 2 ^ 63 := lt_trans hp1 (by norm_num)
  have h2 : d2.pcr < 2 ^ 63 := lt_trans hp2 (by norm_num)
  have habs := int64_absDiff_exact d1.pcr d2.pcr h1 h2
  refine ⟨_, comparePCR_cons_cons_emit alignThresholdMs latencyThresholdMs d1 d2 t0 t1 out hv,
    ?_, ?_⟩
  · simp only [habs, ge_iff_le, Bool.and_eq_true, decide_eq_true_eq]
    exact ⟨fun h => h.2, fun h => ⟨abs_nonneg _, h⟩⟩
  · intro he
    simp only [habs, ge_iff_le, Bool.and_eq_true, decide_eq_true_eq]
    simp only [habs] at he
    exact ⟨abs_nonneg _, le_of_eq he⟩

/-- C1 witness: with both PCR queues holding one aligned sample each and a
PCR difference of 27000 ticks (exactly 1 ms, the Core threshold), a record
is emitted and its Sync field is true exactly when 1 ≤ 1. -/
theorem C1_sync_iff_delta_le_threshold_witness :
    ∃ r : PcrRecord,
      comparePCR 5 1 ⟨[⟨27000, 0⟩], [⟨0, 0⟩], []⟩ = ⟨[], [], [] ++ [r]⟩ ∧
      (r.sync = true ↔ r.pcrDeltaInMs ≤ 1) ∧
      (r.pcrDeltaInMs = 1 → r.sync = true) :=
  C1_sync_iff_delta_le_threshold 5 1 ⟨27000, 0⟩ ⟨0, 0⟩ [] [] []
    (by simp [verifyPCRDataInputTimestamp, int64OfUInt64, int64Wrap, llabs])
    (by decide) (by decide)

/-- C2 counterexample: the claim fixes the alignment threshold at 5 ms for
every comparison step, but `ts::PcrComparator::verifyPCRDataInputTimestamp`
(tsPcrComparator.cpp:191) uses 10 ms.  With front timestamps 0 and 189000
ticks (a difference of exactly 7 ms > 5 ms) the claim predicts a reset with
no record, yet the PcrComparator step emits one record and pops both
queues. -/
theorem C2_alignment_threshold_counterexample :
    (5 : ℚ) < (189000 : ℚ) / (90000 * 300) * 1000 ∧
    verifyPCRDataInputTimestamp pcrComparator_timestampThreshold
      ⟨100, 0⟩ ⟨100, 189000⟩ = false ∧
    (pcrComparator_comparePCR 0 ⟨[⟨100, 0⟩], [⟨100, 189000⟩], []⟩).output.length = 1 ∧
    pcrComparator_comparePCR 0 ⟨[⟨100, 0⟩], [⟨100, 189000⟩], []⟩ ≠ ⟨[], [], []⟩ := by
  have hv : verifyPCRDataInputTimestamp pcrComparator_timestampThreshold
      ⟨100, 0⟩ ⟨100, 189000⟩ = false := by
    simp [verifyPCRDataInputTimestamp, int64OfUInt64, int64Wrap, llabs,
      pcrComparator_timestampThreshold]
    norm_num
  have hstep := comparePCR_cons_cons_emit pcrComparator_timestampThreshold 0
    ⟨100, 0⟩ ⟨100, 189000⟩ [] [] [] hv
  refine ⟨by norm_num, hv, ?_, ?_⟩
  · rw [show pcrComparator_comparePCR 0 = comparePCR pcrComparator_timestampThreshold 0 from rfl,
      hstep]
    simp
  · rw [show pcrComparator_comparePCR 0 = comparePCR pcrComparator_timestampThreshold 0 from rfl,
      hstep]
    intro h
    simp [CoreState.mk.injEq] at h

/-- C2 (amended): with both queues non-empty, the comparison step resets
(clears both queues, emitting nothing) iff the front timestamp difference in
milliseconds strictly exceeds the alignment threshold of the variant: 5 ms in
`ts::tspcrdelta::Core`, 10 ms in `ts::PcrComparator`.  A pair at exactly
5.0 ms is not reset by the Core variant and proceeds to record emission. -/
theorem C2_reset_iff_misaligned (latencyThresholdMs : ℚ) (d1 d2 : TimingData)
    (t0 t1 : List TimingData) (out : List PcrRecord)
    (h1 : d1.timestamp < 2 ^ 63) (h2 : d2.timestamp < 2 ^ 63) :
    (comparePCR tspcrdeltaCore_timestampThreshold latencyThresholdMs
        ⟨d1 :: t0, d2 :: t1, out⟩ = ⟨[], [], out⟩ ↔
      5 < |(d1.timestamp : ℚ) - (d2.timestamp : ℚ)| / (90000 * 300) * 1000) ∧
    (comparePCR pcrComparator_timestampThreshold latencyThresholdMs
        ⟨d1 :: t0, d2 :: t1, out⟩ = ⟨[], [], out⟩ ↔
      10 < |(d1.timestamp : ℚ) - (d2.timestamp : ℚ)| / (90000 * 300) * 1000) ∧
    (¬ 5 < |(d1.timestamp : ℚ) - (d2.timestamp : ℚ)| / (90000 * 300) * 1000 →
      ∃ r : PcrRecord, comparePCR tspcrdeltaCore_timestampThreshold latencyThresholdMs
        ⟨d1 :: t0, d2 :: t1, out⟩ = ⟨t0, t1, out ++ [r]⟩) := by
  have key : ∀ th : ℚ,
      comparePCR th latencyThresholdMs ⟨d1 :: t0, d2 :: t1, out⟩ = ⟨[], [], out⟩ ↔
        th < |(d1.timestamp : ℚ) - (d2.timestamp : ℚ)| / (90000 * 300) * 1000 := by
    intro th
    by_cases hb : verifyPCRDataInputTimestamp th d1 d2 = true
    · rw [comparePCR_cons_cons_reset th latencyThresholdMs d1 d2 t0 t1 out hb]
      simp only [true_iff, iff_true]
      exact (verifyPCRDataInputTimestamp_eq_true_iff th d1 d2 h1 h2).mp hb
    · have hb2 : verifyPCRDataInputTimestamp th d1 d2 = false := by
        revert hb
        cases verifyPCRDataInputTimestamp th d1 d2 <;> simp
      rw [comparePCR_cons_cons_emit th latencyThresholdMs d1 d2 t0 t1 out hb2]
      constructor
      · intro h
        exfalso
        simp [CoreState.mk.injEq] at h
      · intro h
        exfalso
        exact hb ((verifyPCRDataInputTimestamp_eq_true_iff th d1 d2 h1 h2).mpr h)
  refine ⟨?_, ?_, ?_⟩
  · have := key tspcrdeltaCore_timestampThreshold
    rwa [show tspcrdeltaCore_timestampThreshold = (5 : ℚ) from rfl] at this
  · have := key pcrComparator_timestampThreshold
    rwa [show pcrComparator_timestampThreshold = (10 : ℚ) from rfl] at this
  · intro hle
    have hb2 : verifyPCRDataInputTimestamp tspcrdeltaCore_timestampThreshold d1 d2 = false := by
      have hne : ¬ verifyPCRDataInputTimestamp tspcrdeltaCore_timestampThreshold d1 d2 = true := by
        intro hb
        exact hle ((verifyPCRDataInputTimestamp_eq_true_iff
          tspcrdeltaCore_timestampThreshold d1 d2 h1 h2).mp hb)
      revert hne
      cases verifyPCRDataInputTimestamp tspcrdeltaCore_timestampThreshold d1 d2 <;> simp
    exact ⟨_, comparePCR_cons_cons_emit tspcrdeltaCore_timestampThreshold latencyThresholdMs
      d1 d2 t0 t1 out hb2⟩

/-- C2 (amended) witness: two fronts with timestamps 0 and 189000 ticks,
instantiating the reset-iff characterization at a concrete state. -/
theorem C2_reset_iff_misaligned_witness :
    (comparePCR tspcrdeltaCore_timestampThreshold 1
        ⟨[⟨0, 0⟩], [⟨0, 189000⟩], []⟩ = ⟨[], [], []⟩ ↔
      5 < |((0 : ℕ) : ℚ) - ((189000 : ℕ) : ℚ)| / (90000 * 300) * 1000) ∧
    (comparePCR pcrComparator_timestampThreshold 1
        ⟨[⟨0, 0⟩], [⟨0, 189000⟩], []⟩ = ⟨[], [], []⟩ ↔
      10 < |((0 : ℕ) : ℚ) - ((189000 : ℕ) : ℚ)| / (90000 * 300) * 1000) ∧
    (¬ 5 < |((0 : ℕ) : ℚ) - ((189000 : ℕ) : ℚ)| / (90000 * 300) * 1000 →
      ∃ r : PcrRecord, comparePCR tspcrdeltaCore_timestampThreshold 1
        ⟨[⟨0, 0⟩], [⟨0, 189000⟩], []⟩ = ⟨[], [⟨0, 189000⟩].tail, [] ++ [r]⟩) :=
  C2_reset_iff_misaligned 1 ⟨0, 0⟩ ⟨0, 189000⟩ [] [] [] (by decide) (by decide)

/-- C3 counterexample: the claim says the latency threshold of the comparison step
equals the `--latency` option value and is 0 ms when the option is absent,
but `ts::tspcrdelta::Core` hardcodes `_pcr_delta_threshold_in_ms` to 1
(tstspcrdeltaCore.cpp:47) and its `PcrComparatorArgs` defines no `latency`
option at all (tsPcrComparatorArgs.cpp:54-59).  Concretely, the Core step
emits a record with PCR delta 13500 ticks (0.5 ms > 0 ms) and Sync = true,
which the claimed 0 ms default would report as false. -/
theorem C3_latency_threshold_counterexample :
    tspcrdeltaCore_pcr_delta_threshold_in_ms = 1 ∧ (1 : ℚ) ≠ 0 ∧
    "latency" ∉ pcrComparatorArgs_optionNames ∧
    ∃ r : PcrRecord,
      tspcrdeltaCore_comparePCR ⟨[⟨13500, 2⟩], [⟨0, 2⟩], []⟩ = ⟨[], [], [] ++ [r]⟩ ∧
      r.pcrDeltaInMs = 1 / 2 ∧ r.sync = true ∧ ¬ r.pcrDeltaInMs ≤ 0 := by
  have hv : verifyPCRDataInputTimestamp tspcrdeltaCore_timestampThreshold
      ⟨13500, 2⟩ ⟨0, 2⟩ = false := by
    simp [verifyPCRDataInputTimestamp, int64OfUInt64, int64Wrap, llabs,
      tspcrdeltaCore_timestampThreshold]
  have hstep := comparePCR_cons_cons_emit tspcrdeltaCore_timestampThreshold
    tspcrdeltaCore_pcr_delta_threshold_in_ms ⟨13500, 2⟩ ⟨0, 2⟩ [] [] [] hv
  have hd : llabs (int64Wrap (int64OfUInt64 13500 - int64OfUInt64 0)) = 13500 := by
    rw [int64OfUInt64_of_lt 13500 (by norm_num), int64OfUInt64_of_lt 0 (by norm_num)]
    rw [int64Wrap_eq_self _ (by norm_num) (by norm_num)]
    rw [llabs_of_lt _ (by norm_num)]
    norm_num
  refine ⟨rfl, by norm_num, by decide, ?_⟩
  refine ⟨_, hstep, ?_, ?_, ?_⟩
  · simp only [hd]
    norm_num [tspcrdeltaCore_pcr_delta_threshold_in_ms]
  · simp only [hd, ge_iff_le, Bool.and_eq_true, decide_eq_true_eq]
    constructor
    · norm_num
    · norm_num [tspcrdeltaCore_pcr_delta_threshold_in_ms]
  · simp only [hd]
    norm_num

/-- C3 (amended): the `--latency` option exists only in the latency-monitor
argument set, where its value (default 0 when absent) is loaded into
`latencyThreshold` and used by the comparator variants taking
`args.latencyThreshold`; the `ts::tspcrdelta::Core` comparison step instead
uses the hardcoded constant 1 ms and its `PcrComparatorArgs` defines no
`latency` option. -/
theorem C3_latency_threshold_amended :
    (∀ v : ℕ, lantencyMonitorArgs_latencyThreshold (some v) = v) ∧
    lantencyMonitorArgs_latencyThreshold none = 0 ∧
    "latency" ∈ lantencyMonitorArgs_optionNames ∧
    tspcrdeltaCore_pcr_delta_threshold_in_ms = 1 ∧
    "latency" ∉ pcrComparatorArgs_optionNames ∧
    tspcrdeltaCore_comparePCR =
      comparePCR tspcrdeltaCore_timestampThreshold 1 :=
  ⟨fun v => rfl, rfl, by decide, rfl, by decide, rfl⟩

/-- C4: when one PCR queue is empty and the other has length strictly greater
than 10, the comparison step clears both queues and emits nothing; at length
exactly 10 with the other empty nothing happens, and the next push to the
long side (length 11) triggers the reset. -/
theorem C4_watermark_reset (alignThresholdMs latencyThresholdMs : ℚ) (s : CoreState) :
    (s.q1 = [] → 10 < s.q0.length →
      comparePCR alignThresholdMs latencyThresholdMs s = ⟨[], [], s.output⟩) ∧
    (s.q0 = [] → 10 < s.q1.length →
      comparePCR alignThresholdMs latencyThresholdMs s = ⟨[], [], s.output⟩) ∧
    (s.q1 = [] → s.q0.length = 10 →
      comparePCR alignThresholdMs latencyThresholdMs s = s) ∧
    (s.q0 = [] → s.q1.length = 10 →
      comparePCR alignThresholdMs latencyThresholdMs s = s) ∧
    (s.q1 = [] → s.q0.length = 10 → ∀ d : TimingData,
      comparePCR alignThresholdMs latencyThresholdMs (pushSample s 0 d) =
        ⟨[], [], s.output⟩) ∧
    (s.q0 = [] → s.q1.length = 10 → ∀ d : TimingData,
      comparePCR alignThresholdMs latencyThresholdMs (pushSample s 1 d) =
        ⟨[], [], s.output⟩) := by
  obtain ⟨q0, q1, out⟩ := s
  refine ⟨?_, ?_, ?_, ?_, ?_, ?_⟩ <;> intro hnil hlen
  · subst hnil
    rw [comparePCR_q1_nil, if_pos hlen]
  · subst hnil
    rw [comparePCR_q0_nil, if_pos hlen]
  · subst hnil
    have hlen2 : q0.length = 10 := hlen
    rw [comparePCR_q1_nil, if_neg (by omega)]
  · subst hnil
    have hlen2 : q1.length = 10 := hlen
    rw [comparePCR_q0_nil, if_neg (by omega)]
  · intro d
    subst hnil
    have hpush : pushSample ⟨q0, [], out⟩ 0 d = ⟨q0 ++ [d], [], out⟩ := by
      simp [pushSample]
    rw [hpush, comparePCR_q1_nil, if_pos (by simp [hlen])]
  · intro d
    subst hnil
    have hpush : pushSample ⟨[], q1, out⟩ 1 d = ⟨[], q1 ++ [d], out⟩ := by
      simp [pushSample]
    rw [hpush, comparePCR_q0_nil, if_pos (by simp [hlen])]

/-- C4 witness: with 11 samples on input 0 and input 1 empty the step resets;
with exactly 10 it does not, and pushing an 11th then resets. -/
theorem C4_watermark_reset_witness :
    comparePCR 5 1 ⟨List.replicate 11 ⟨0, 0⟩, [], []⟩ = ⟨[], [], []⟩ ∧
    comparePCR 5 1 ⟨List.replicate 10 ⟨0, 0⟩, [], []⟩ =
      ⟨List.replicate 10 ⟨0, 0⟩, [], []⟩ ∧
    comparePCR 5 1 (pushSample ⟨List.replicate 10 ⟨0, 0⟩, [], []⟩ 0 ⟨0, 0⟩) =
      ⟨[], [], []⟩ :=
  ⟨(C4_watermark_reset 5 1 ⟨List.replicate 11 ⟨0, 0⟩, [], []⟩).1 rfl (by decide),
   (C4_watermark_reset 5 1 ⟨List.replicate 10 ⟨0, 0⟩, [], []⟩).2.2.1 rfl (by decide),
   (C4_watermark_reset 5 1 ⟨List.replicate 10 ⟨0, 0⟩, [], []⟩).2.2.2.2.1 rfl (by decide) ⟨0, 0⟩⟩

/-- C5: every invocation of the comparison step either pops exactly the front
sample of each queue while emitting exactly one record, or clears both
queues entirely while emitting nothing, or leaves the state unchanged;
no queue ever loses samples on one side only, and no reset is partial. -/
theorem C5_step_trichotomy (alignThresholdMs latencyThresholdMs : ℚ) (s : CoreState) :
    (s.q0 ≠ [] ∧ s.q1 ≠ [] ∧ ∃ r : PcrRecord,
      comparePCR alignThresholdMs latencyThresholdMs s =
        ⟨s.q0.tail, s.q1.tail, s.output ++ [r]⟩) ∨
    comparePCR alignThresholdMs latencyThresholdMs s = ⟨[], [], s.output⟩ ∨
    comparePCR alignThresholdMs latencyThresholdMs s = s := by
  obtain ⟨q0, q1, out⟩ := s
  cases q0 with
  | nil =>
    rw [comparePCR_q0_nil]
    by_cases h : 10 < q1.length
    · rw [if_pos h]
      right; left; rfl
    · rw [if_neg h]
      right; right; rfl
  | cons d1 t0 =>
    cases q1 with
    | nil =>
      rw [comparePCR_q1_nil]
      by_cases h : 10 < (d1 :: t0).length
      · rw [if_pos h]
        right; left; rfl
      · rw [if_neg h]
        right; right; rfl
    | cons d2 t1 =>
      by_cases hb : verifyPCRDataInputTimestamp alignThresholdMs d1 d2 = true
      · rw [comparePCR_cons_cons_reset alignThresholdMs latencyThresholdMs d1 d2 t0 t1 out hb]
        right; left; rfl
      · have hb2 : verifyPCRDataInputTimestamp alignThresholdMs d1 d2 = false := by
          revert hb
          cases verifyPCRDataInputTimestamp alignThresholdMs d1 d2 <;> simp
        left
        refine ⟨by simp, by simp, ?_⟩
        exact ⟨_, comparePCR_cons_cons_emit alignThresholdMs latencyThresholdMs d1 d2 t0 t1 out hb2⟩

theorem dropOldestLoop_of_lt (maxInputPackets bufferSize : ℕ) (u : RingState)
    (h : u.outCount < bufferSize) :
    ∀ fuel : ℕ, dropOldestLoop maxInputPackets bufferSize fuel u = u := by
  intro fuel
  cases fuel with
  | zero => rfl
  | succ n =>
    rw [dropOldestLoop, if_neg (by omega)]

/-- C6: at the start of a receive iteration with `out_count = capacity`, the
backpressure step drops exactly `min(max_input_packets, capacity - out_first)`
oldest packets (advancing `out_first` modulo the capacity and decrementing
`out_count` by that amount); the receive window then satisfies
`in_first = (out_first + out_count) % capacity` and
`in_count = min(max_input_packets, min(capacity - out_count,
capacity - in_first))`; and from any well-formed state, `out_count ≤ capacity`
and `in_first + in_count ≤ capacity` hold afterwards. -/
theorem C6_ring_buffer_backpressure (maxInputPackets bufferSize : ℕ) (s : RingState)
    (hm : 0 < maxInputPackets) (hb : 0 < bufferSize)
    (hf : s.outFirst < bufferSize) (hc : s.outCount ≤ bufferSize) :
    ∃ t : RingState, ∃ inFirst inCount : ℕ,
      inputExecutor_receiveWindow maxInputPackets bufferSize s = (t, inFirst, inCount) ∧
      (s.outCount = bufferSize →
        t = ⟨(s.outFirst + min maxInputPackets (bufferSize - s.outFirst)) % bufferSize,
             s.outCount - min maxInputPackets (bufferSize - s.outFirst)⟩) ∧
      (s.outCount < bufferSize → t = s) ∧
      t.outCount ≤ bufferSize ∧
      t.outFirst < bufferSize ∧
      inFirst = (t.outFirst + t.outCount) % bufferSize ∧
      inCount = min maxInputPackets (min (bufferSize - t.outCount) (bufferSize - inFirst)) ∧
      inFirst + inCount ≤ bufferSize := by
  have hfree : 0 < min maxInputPackets (bufferSize - s.outFirst) := by
    rw [lt_min_iff]
    omega
  have hdrop : dropOldestLoop maxInputPackets bufferSize (s.outCount + 1) s =
      (if s.outCount = bufferSize then
        (⟨(s.outFirst + min maxInputPackets (bufferSize - s.outFirst)) % bufferSize,
          s.outCount - min maxInputPackets (bufferSize - s.outFirst)⟩ : RingState)
      else s) := by
    by_cases hx : s.outCount = bufferSize
    · rw [if_pos hx, dropOldestLoop, if_pos (by omega)]
      apply dropOldestLoop_of_lt
      simp only
      omega
    · rw [if_neg hx]
      exact dropOldestLoop_of_lt maxInputPackets bufferSize s (by omega) _
  refine ⟨_, _, _, rfl, ?_, ?_, ?_, ?_, ?_, ?_, ?_⟩
  · intro hx
    simp only [inputExecutor_receiveWindow, hdrop, if_pos hx]
  · intro hx
    simp only [inputExecutor_receiveWindow, hdrop, if_neg (by omega : ¬ s.outCount = bufferSize)]
  · simp only [inputExecutor_receiveWindow, hdrop]
    by_cases hx : s.outCount = bufferSize
    · rw [if_pos hx]
      simp only
      omega
    · rw [if_neg hx]
      exact hc
  · simp only [inputExecutor_receiveWindow, hdrop]
    by_cases hx : s.outCount = bufferSize
    · rw [if_pos hx]
      exact Nat.mod_lt _ hb
    · rw [if_neg hx]
      exact hf
  · rfl
  · rfl
  · have h1 : (((dropOldestLoop maxInputPackets bufferSize (s.outCount + 1) s).outFirst +
        (dropOldestLoop maxInputPackets bufferSize (s.outCount + 1) s).outCount) % bufferSize) <
        bufferSize := Nat.mod_lt _ hb
    have h2 := Nat.min_le_right (bufferSize -
        (dropOldestLoop maxInputPackets bufferSize (s.outCount + 1) s).outCount)
      (bufferSize - ((dropOldestLoop maxInputPackets bufferSize (s.outCount + 1) s).outFirst +
        (dropOldestLoop maxInputPackets bufferSize (s.outCount + 1) s).outCount) % bufferSize)
    have h3 := Nat.min_le_right maxInputPackets
      (min (bufferSize - (dropOldestLoop maxInputPackets bufferSize (s.outCount + 1) s).outCount)
        (bufferSize - ((dropOldestLoop maxInputPackets bufferSize (s.outCount + 1) s).outFirst +
          (dropOldestLoop maxInputPackets bufferSize (s.outCount + 1) s).outCount) % bufferSize))
    omega

/-- C6 witness: capacity 16, `max_input_packets` 4, full buffer with
`out_first = 0`: the drop frees 4 packets and the receive window is
`in_first = 12`, `in_count = 4`. -/
theorem C6_ring_buffer_backpressure_witness :
    ∃ t : RingState, ∃ inFirst inCount : ℕ,
      inputExecutor_receiveWindow 4 16 ⟨0, 16⟩ = (t, inFirst, inCount) ∧
      (16 = 16 → t = ⟨(0 + min 4 (16 - 0)) % 16, 16 - min 4 (16 - 0)⟩) ∧
      (16 < 16 → t = ⟨0, 16⟩) ∧
      t.outCount ≤ 16 ∧
      t.outFirst < 16 ∧
      inFirst = (t.outFirst + t.outCount) % 16 ∧
      inCount = min 4 (min (16 - t.outCount) (16 - inFirst)) ∧
      inFirst + inCount ≤ 16 :=
  C6_ring_buffer_backpressure 4 16 ⟨0, 16⟩ (by decide) (by decide) (by decide) (by decide)

/-- C7: for every emitted record whose two front PCRs lie in the valid
42-bit range `[0, 2^42)`, the PCR Delta field equals the exact absolute
difference (the signed 64-bit arithmetic cannot overflow there) and the
PCR Delta (ms) field equals `PCR Delta / (90000*300) * 1000` in exact
(rational) arithmetic, the idealization of the `double` computation. -/
theorem C7_pcr_delta_exact (alignThresholdMs latencyThresholdMs : ℚ)
    (d1 d2 : TimingData) (t0 t1 : List TimingData) (out : List PcrRecord)
    (hv : verifyPCRDataInputTimestamp alignThresholdMs d1 d2 = false)
    (hp1 : d1.pcr < 2 ^ 42) (hp2 : d2.pcr < 2 ^ 42) :
    ∃ r : PcrRecord,
      comparePCR alignThresholdMs latencyThresholdMs ⟨d1 :: t0, d2 :: t1, out⟩ =
        ⟨t0, t1, out ++ [r]⟩ ∧
      r.pcr1 = (d1.pcr : ℤ) ∧ r.pcr2 = (d2.pcr : ℤ) ∧
      r.pcrDelta = |(d1.pcr : ℤ) - (d2.pcr : ℤ)| ∧
      r.pcrDeltaInMs = (r.pcrDelta : ℚ) / (90000 * 300) * 1000 := by
  have h1 : d1.pcr < 2 ^ 63 := lt_trans hp1 (by norm_num)
  have h2 : d2.pcr < 2 ^ 63 := lt_trans hp2 (by norm_num)
  have habs := int64_absDiff_exact d1.pcr d2.pcr h1 h2
  refine ⟨_, comparePCR_cons_cons_emit alignThresholdMs latencyThresholdMs d1 d2 t0 t1 out hv,
    ?_, ?_, ?_, ?_⟩
  · exact int64OfUInt64_of_lt d1.pcr h1
  · exact int64OfUInt64_of_lt d2.pcr h2
  · exact habs
  · simp only [habs]

/-- C7 witness: boundary PCR values `2^42 - 1` and `0` are accepted and give
the exact delta `2^42 - 1`. -/
theorem C7_pcr_delta_exact_witness :
    ∃ r : PcrRecord,
      comparePCR 5 1 ⟨[⟨4398046511103, 9⟩], [⟨0, 9⟩], []⟩ = ⟨[], [], [] ++ [r]⟩ ∧
      r.pcr1 = ((4398046511103 : ℕ) : ℤ) ∧ r.pcr2 = ((0 : ℕ) : ℤ) ∧
      r.pcrDelta = |((4398046511103 : ℕ) : ℤ) - ((0 : ℕ) : ℤ)| ∧
      r.pcrDeltaInMs = (r.pcrDelta : ℚ) / (90000 * 300) * 1000 :=
  C7_pcr_delta_exact 5 1 ⟨4398046511103, 9⟩ ⟨0, 9⟩ [] [] []
    (by simp [verifyPCRDataInputTimestamp, int64OfUInt64, int64Wrap, llabs])
    (by decide) (by decide)

/-- C8 counterexample: the claim says the Sync field of each record line is
emitted as the literal lowercase word `true` or `false`, but the cited
`ts::tspcrdelta::Core::comparePCR` streams the `bool` without
`std::boolalpha`, so it prints `1` or `0`: the concrete record line for a
true Sync flag is `0,0,0,0,1` + newline, not `0,0,0,0,true` + newline. -/
theorem C8_sync_field_counterexample :
    tspcrdeltaCore_csvLine 0 0 0 "0" true = "0,0,0,0,1" ++ "\n" ∧
    ostreamDefaultBool true = "1" ∧ ostreamDefaultBool false = "0" ∧
    "1" ≠ "true" ∧ "0" ≠ "false" := by
  refine ⟨?_, rfl, rfl, by decide, by decide⟩
  rfl

/-- C8 (amended): the tstspcrdelta Core output is one header line
`PCR1,PCR2,PCR Delta,PCR Delta (ms),Sync` followed by one record line per
comparison, fields separated by single commas and each line terminated by a
single newline; the Sync field is emitted as `1` or `0` (C++ default bool
formatting), not as lowercase `true`/`false` — the PcrComparator revisions
do print `true`/`false` via `std::boolalpha` but title the fourth column
`Latency (ms)`. -/
theorem C8_output_format_amended :
    tspcrdeltaCore_csvHeader = "PCR1,PCR2,PCR Delta,PCR Delta (ms),Sync" ++ "\n" ∧
    pcrComparator_csvHeader = "PCR1,PCR2,PCR Delta,Latency (ms),Sync" ++ "\n" ∧
    (∀ p1 p2 d : ℤ, ∀ msText : String, ∀ sync : Bool,
      tspcrdeltaCore_csvLine p1 p2 d msText sync =
        toString p1 ++ "," ++ toString p2 ++ "," ++ toString d ++ "," ++ msText ++ "," ++
        (if sync then "1" else "0") ++ "\n") ∧
    ostreamBoolalphaBool true = "true" ∧ ostreamBoolalphaBool false = "false" := by
  refine ⟨rfl, rfl, ?_, rfl, rfl⟩
  intro p1 p2 d msText sync
  rfl

/-- C9: for every batch handed to `analyzePacket`, packets are processed in
batch order; each packet whose PCR differs from the `INVALID_PCR` sentinel
contributes exactly one push of `(pcr, timestamp)` followed by one
invocation of the comparison step, and a packet whose PCR equals the
sentinel leaves queues and output entirely unchanged. -/
theorem C9_ingest_per_packet (alignThresholdMs latencyThresholdMs : ℚ)
    (pluginIndex : Fin 2) (s : CoreState) (p : PacketView) (batch : List PacketView) :
    (p.pcr = INVALID_PCR →
      packetStep alignThresholdMs latencyThresholdMs pluginIndex s p = s) ∧
    (p.pcr ≠ INVALID_PCR →
      packetStep alignThresholdMs latencyThresholdMs pluginIndex s p =
        comparePCR alignThresholdMs latencyThresholdMs
          (pushSample s pluginIndex ⟨p.pcr, p.timestamp⟩)) ∧
    analyzePacket alignThresholdMs latencyThresholdMs pluginIndex s (p :: batch) =
      analyzePacket alignThresholdMs latencyThresholdMs pluginIndex
        (packetStep alignThresholdMs latencyThresholdMs pluginIndex s p) batch ∧
    analyzePacket alignThresholdMs latencyThresholdMs pluginIndex s [] = s := by
  refine ⟨?_, ?_, rfl, rfl⟩
  · intro hp
    simp [packetStep, hp]
  · intro hp
    simp [packetStep, hp]

/-- C9 witness: a packet carrying the invalid sentinel is a no-op, while a
packet with PCR 100 pushes and compares. -/
theorem C9_ingest_per_packet_witness :
    packetStep 5 1 0 ⟨[], [], []⟩ ⟨INVALID_PCR, 0⟩ = ⟨[], [], []⟩ ∧
    packetStep 5 1 0 ⟨[], [], []⟩ ⟨100, 7⟩ =
      comparePCR 5 1 (pushSample ⟨[], [], []⟩ 0 ⟨100, 7⟩) :=
  ⟨(C9_ingest_per_packet 5 1 0 ⟨[], [], []⟩ ⟨INVALID_PCR, 0⟩ []).1 rfl,
   (C9_ingest_per_packet 5 1 0 ⟨[], [], []⟩ ⟨100, 7⟩ []).2.1 (by decide)⟩

theorem coreInvariant_step (alignThresholdMs latencyThresholdMs : ℚ) (s : CoreState)
    (idx : Fin 2) (d : TimingData)
    (h : (s.q0 = [] ∨ s.q1 = []) ∧ s.q0.length ≤ 10 ∧ s.q1.length ≤ 10) :
    ((comparePCR alignThresholdMs latencyThresholdMs (pushSample s idx d)).q0 = [] ∨
      (comparePCR alignThresholdMs latencyThresholdMs (pushSample s idx d)).q1 = []) ∧
    (comparePCR alignThresholdMs latencyThresholdMs (pushSample s idx d)).q0.length ≤ 10 ∧
    (comparePCR alignThresholdMs latencyThresholdMs (pushSample s idx d)).q1.length ≤ 10 := by
  obtain ⟨q0, q1, out⟩ := s
  obtain ⟨hmin, h0, h1⟩ := h
  by_cases hidx : idx.val = 0
  · have hpush : pushSample ⟨q0, q1, out⟩ idx d = ⟨q0 ++ [d], q1, out⟩ := by
      simp [pushSample, hidx]
    rw [hpush]
    rcases hmin with hq | hq
    · have hq2 : q0 = [] := hq
      subst hq2
      simp only [List.nil_append]
      cases q1 with
      | nil =>
        rw [comparePCR_q1_nil, if_neg (by simp)]
        exact ⟨Or.inr rfl, by simp, by simp⟩
      | cons d2 t1 =>
        by_cases hb : verifyPCRDataInputTimestamp alignThresholdMs d d2 = true
        · rw [comparePCR_cons_cons_reset _ _ _ _ _ _ _ hb]
          exact ⟨Or.inl rfl, by simp, by simp⟩
        · have hb2 : verifyPCRDataInputTimestamp alignThresholdMs d d2 = false := by
            revert hb
            cases verifyPCRDataInputTimestamp alignThresholdMs d d2 <;> simp
          rw [comparePCR_cons_cons_emit _ _ _ _ _ _ _ hb2]
          have ht1 : t1.length ≤ 9 := by
            have hh : (d2 :: t1).length ≤ 10 := h1
            simp at hh
            omega
          exact ⟨Or.inl rfl, by simp, Nat.le_trans ht1 (by norm_num)⟩
    · have hq2 : q1 = [] := hq
      subst hq2
      rw [comparePCR_q1_nil]
      by_cases hw : 10 < (q0 ++ [d]).length
      · rw [if_pos hw]
        exact ⟨Or.inl rfl, by simp, by simp⟩
      · rw [if_neg hw]
        refine ⟨Or.inr rfl, ?_, by simp⟩
        simp only [List.length_append, List.length_singleton, not_lt] at hw
        simpa using hw
  · have hpush : pushSample ⟨q0, q1, out⟩ idx d = ⟨q0, q1 ++ [d], out⟩ := by
      simp [pushSample, hidx]
    rw [hpush]
    rcases hmin with hq | hq
    · have hq2 : q0 = [] := hq
      subst hq2
      rw [comparePCR_q0_nil]
      by_cases hw : 10 < (q1 ++ [d]).length
      · rw [if_pos hw]
        exact ⟨Or.inl rfl, by simp, by simp⟩
      · rw [if_neg hw]
        refine ⟨Or.inl rfl, by simp, ?_⟩
        simp only [List.length_append, List.length_singleton, not_lt] at hw
        simpa using hw
    · have hq2 : q1 = [] := hq
      subst hq2
      simp only [List.nil_append]
      cases q0 with
      | nil =>
        rw [comparePCR_q0_nil, if_neg (by simp)]
        exact ⟨Or.inl rfl, by simp, by simp⟩
      | cons d1 t0 =>
        by_cases hb : verifyPCRDataInputTimestamp alignThresholdMs d1 d = true
        · rw [comparePCR_cons_cons_reset _ _ _ _ _ _ _ hb]
          exact ⟨Or.inl rfl, by simp, by simp⟩
        · have hb2 : verifyPCRDataInputTimestamp alignThresholdMs d1 d = false := by
            revert hb
            cases verifyPCRDataInputTimestamp alignThresholdMs d1 d <;> simp
          rw [comparePCR_cons_cons_emit _ _ _ _ _ _ _ hb2]
          have ht0 : t0.length ≤ 9 := by
            have hh : (d1 :: t0).length ≤ 10 := h0
            simp at hh
            omega
          exact ⟨Or.inr rfl, Nat.le_trans ht0 (by norm_num), by simp⟩

/-- C10: after every return of the comparison step along the serialized
ingest starting from two empty queues, at least one of the two PCR queues is
empty and neither queue holds more than 10 samples. -/
theorem C10_queue_invariant (alignThresholdMs latencyThresholdMs : ℚ) (s : CoreState)
    (h : ReachedState alignThresholdMs latencyThresholdMs s) :
    min s.q0.length s.q1.length = 0 ∧ s.q0.length ≤ 10 ∧ s.q1.length ≤ 10 := by
  induction h with
  | init => simp
  | step t idx d ht ih =>
    obtain ⟨hm, h0, h1⟩ := ih
    have hsplit : t.q0 = [] ∨ t.q1 = [] := by
      rcases Nat.min_eq_zero_iff.mp hm with hz | hz
      · exact Or.inl (List.length_eq_zero.mp hz)
      · exact Or.inr (List.length_eq_zero.mp hz)
    obtain ⟨km, k0, k1⟩ :=
      coreInvariant_step alignThresholdMs latencyThresholdMs t idx d ⟨hsplit, h0, h1⟩
    refine ⟨?_, k0, k1⟩
    rcases km with hz | hz <;> simp [hz]

/-- C10 witness: the state reached after pushing one sample to input 0 and
comparing satisfies the invariant. -/
theorem C10_queue_invariant_witness :
    min (comparePCR 5 1 (pushSample ⟨[], [], []⟩ 0 ⟨7, 7⟩)).q0.length
      (comparePCR 5 1 (pushSample ⟨[], [], []⟩ 0 ⟨7, 7⟩)).q1.length = 0 ∧
    (comparePCR 5 1 (pushSample ⟨[], [], []⟩ 0 ⟨7, 7⟩)).q0.length ≤ 10 ∧
    (comparePCR 5 1 (pushSample ⟨[], [], []⟩ 0 ⟨7, 7⟩)).q1.length ≤ 10 :=
  C10_queue_invariant 5 1 _ (ReachedState.step ⟨[], [], []⟩ 0 ⟨7, 7⟩ ReachedState.init)
